import Mathlib

/-!
Verification of the event-distribution layer of the `ai-linkedin-post`
repository: the WebSocket gateway (`src/gateway/src/index.js`) and the
client-side WebSocket service (`src/frontend/src/services/websocket.ts`,
bundled in `src/frontend/src/types/index.ts`).

The gateway is embedded shallowly:

* JavaScript values reaching `JSON.parse` are modelled by `JsonVal`;
  `JSON.parse` itself is a host-language builtin, so it appears as a
  parameter `jsonParse : String → Option JsonVal` (`none` = the parse threw).
* The global `clientSubscriptions` `Map` (client id → `Set` of channel
  strings) is an association list `List (String × List String)`; the JS `Set`
  is a duplicate-free list (`setAdd` inserts only when absent, exactly as the
  guarded `subs.add(channel)` in the source runs only when `!subs.has`).
* The upstream Redis subscriber holds a set of subscribed channels
  (`redisChannels`, Redis SUBSCRIBE semantics: inserting an already
  subscribed channel is a no-op), and we additionally record the trace of
  `redisSub.subscribe(...)` calls the gateway issues (`subCommands`).
* `Date.now()` is a parameter `now : Nat`.
* `ws.send` never throws synchronously on an open socket in the `ws`
  library; a failed delivery surfaces on the socket's error event, whose
  registered handler only logs.  Delivery failure is therefore modelled as a
  per-socket predicate applied *after* the dispatch loop has produced its
  list of send attempts (`deliveries`).
-/

/-- JavaScript/JSON values, as far as the gateway's message handlers
inspect them. -/
inductive JsonVal where
  | jnull : JsonVal
  | jbool (b : Bool) : JsonVal
  | jnum (n : Int) : JsonVal
  | jstr (s : String) : JsonVal
  | jobj (fields : List (String × JsonVal)) : JsonVal

/-- Property access `v.key` on a parsed value: an own-property lookup on an
object, `undefined` (here `none`) on everything else. -/
def getField (v : JsonVal) (key : String) : Option JsonVal :=
  match v with
  | .jobj fields => lookupField fields key
  | _ => none
where
  lookupField : List (String × JsonVal) → String → Option JsonVal
    | [], _ => none
    | e :: rest, k => if e.1 = k then some e.2 else lookupField rest k

/-- JavaScript truthiness of a (possibly `undefined`) value, as used by
`msg.run_id &&`-style guards in the gateway. -/
def truthy : Option JsonVal → Bool
  | none => false
  | some .jnull => false
  | some (.jbool b) => b
  | some (.jnum n) => !(n = 0)
  | some (.jstr s) => !(s = "")
  | some (.jobj _) => true

/-- The guard `msg.type === t` (strict equality against a string literal). -/
def typeIs (msg : JsonVal) (t : String) : Bool :=
  match getField msg "type" with
  | some (.jstr s) => s = t
  | _ => false

/-- JavaScript string coercion, as performed by the template literal
`` `agent_run:${msg.run_id}` ``. -/
def jsToString : JsonVal → String
  | .jnull => "null"
  | .jbool b => if b then "true" else "false"
  | .jnum n => toString n
  | .jstr s => s
  | .jobj _ => "[object Object]"

/-- Messages the gateway sends to a WebSocket connection
(`ws.send(JSON.stringify({...}))` sites in `src/gateway/src/index.js`). -/
inductive EventData where
  | parsed (v : JsonVal) : EventData
  | raw (s : String) : EventData

inductive OutMsg where
  | connected (clientId : String) (timestamp : Nat) : OutMsg
  | subscribed (channel runId : String) : OutMsg
  | pong (timestamp : Nat) : OutMsg
  | agentEvent (channel : String) (data : EventData) (timestamp : Nat) : OutMsg

/-- `clientSubscriptions.get(k)` (`Map.prototype.get`). -/
def mapLookup (m : List (String × List String)) (k : String) :
    Option (List String) :=
  match m with
  | [] => none
  | e :: rest => if e.1 = k then some e.2 else mapLookup rest k

/-- `clientSubscriptions.set(k, v)` (`Map.prototype.set`): replace the
binding when the key is present, append it otherwise. -/
def mapSet (m : List (String × List String)) (k : String) (v : List String) :
    List (String × List String) :=
  match m with
  | [] => [(k, v)]
  | e :: rest => if e.1 = k then (k, v) :: rest else e :: mapSet rest k v

/-- `clientSubscriptions.delete(k)` (`Map.prototype.delete`; map keys are
unique, so removing every binding of `k` is the same operation). -/
def mapDelete (m : List (String × List String)) (k : String) :
    List (String × List String) :=
  match m with
  | [] => []
  | e :: rest => if e.1 = k then mapDelete rest k else e :: mapDelete rest k

/-- In-place mutation of the `Set` stored under key `k` (the source mutates
the set object returned by `clientSubscriptions.get(clientId)`). -/
def mapUpdate (m : List (String × List String)) (k : String)
    (f : List String → List String) : List (String × List String) :=
  match m with
  | [] => []
  | e :: rest =>
    if e.1 = k then (e.1, f e.2) :: mapUpdate rest k f
    else e :: mapUpdate rest k f

/-- `subs.has(c)` (`Set.prototype.has`). -/
def setHas (s : List String) (c : String) : Bool :=
  decide (c ∈ s)

/-- `subs.add(c)` (`Set.prototype.add`): a no-op when present. -/
def setAdd (s : List String) (c : String) : List String :=
  if c ∈ s then s else s ++ [c]

/-- `subs.delete(c)` (`Set.prototype.delete`). -/
def setDelete (s : List String) (c : String) : List String :=
  s.filter (fun x => !(x = c))

/-- `redisSub.subscribe(c)`: Redis SUBSCRIBE adds `c` to the subscriber
connection's channel set; subscribing an already subscribed channel leaves
the set unchanged. -/
def redisSubscribe (chs : List String) (c : String) : List String :=
  if c ∈ chs then chs else chs ++ [c]

/-- Gateway state: the `clientSubscriptions` map, the Redis subscriber's
channel set, and the trace of subscribe commands the gateway has issued. -/
structure GwState where
  clientSubscriptions : List (String × List String)
  redisChannels : List String
  subCommands : List String
deriving Repr

/-- `src/gateway/src/index.js` lines 120-131: the `subscribe` branch of the
`ws.on('message')` handler. -/
def handleSubscribe (st : GwState) (clientId : String) (msg : JsonVal) :
    GwState × List OutMsg :=
  if typeIs msg "subscribe" && truthy (getField msg "run_id") then
    let channel := "agent_run:" ++ jsToString ((getField msg "run_id").getD .jnull)
    match mapLookup st.clientSubscriptions clientId with
    | some subs =>
      if !(setHas subs channel) then
        ({ st with
            clientSubscriptions :=
              mapUpdate st.clientSubscriptions clientId (fun s => setAdd s channel)
            redisChannels := redisSubscribe st.redisChannels channel
            subCommands := st.subCommands ++ [channel] },
          [OutMsg.subscribed channel (jsToString ((getField msg "run_id").getD .jnull))])
      else (st, [])
    | none => (st, [])
  else (st, [])

/-- Lines 133-139: the `unsubscribe` branch.  Note it only edits the
client's own set; it never touches the Redis subscriber. -/
def handleUnsubscribe (st : GwState) (clientId : String) (msg : JsonVal) :
    GwState × List OutMsg :=
  if typeIs msg "unsubscribe" && truthy (getField msg "run_id") then
    let channel := "agent_run:" ++ jsToString ((getField msg "run_id").getD .jnull)
    match mapLookup st.clientSubscriptions clientId with
    | some _ =>
      ({ st with
          clientSubscriptions :=
            mapUpdate st.clientSubscriptions clientId (fun s => setDelete s channel) },
        [])
    | none => (st, [])
  else (st, [])

/-- Lines 141-143: the `ping` branch. -/
def handlePing (st : GwState) (msg : JsonVal) (now : Nat) :
    GwState × List OutMsg :=
  if typeIs msg "ping" then (st, [OutMsg.pong now]) else (st, [])

/-- Lines 116-147: the whole `ws.on('message')` handler.  `frame = none`
models `JSON.parse` throwing, in which case the surrounding `try`/`catch`
only logs.  The three `if` branches run in sequence on the same parsed
message; the handler contains no `ws.close()` call.  The returned list is
the sequence of `ws.send` calls made back to this connection. -/
def handleMessage (st : GwState) (clientId : String) (frame : Option JsonVal)
    (now : Nat) : GwState × List OutMsg :=
  match frame with
  | none => (st, [])
  | some msg =>
    let r1 := handleSubscribe st clientId msg
    let r2 := handleUnsubscribe r1.1 clientId msg
    let r3 := handlePing r2.1 msg now
    (r3.1, r1.2 ++ r2.2 ++ r3.2)

/-- The handler applied to a raw frame through `JSON.parse`
(`jsonParse` abstracts the builtin). -/
def handleFrame (jsonParse : String → Option JsonVal) (st : GwState)
    (clientId : String) (rawFrame : String) (now : Nat) :
    GwState × List OutMsg :=
  handleMessage st clientId (jsonParse rawFrame) now

/-- Lines 111-114 and 159-163: the `wss.on('connection')` handler installs
an empty subscription set for the new client id and sends the welcome
message. -/
def handleConnect (st : GwState) (clientId : String) (now : Nat) :
    GwState × List OutMsg :=
  ({ st with clientSubscriptions := mapSet st.clientSubscriptions clientId [] },
    [OutMsg.connected clientId now])

/-- Lines 149-152: the `ws.on('close')` handler deletes the client's map
entry and does nothing else — in particular the Redis subscriber's channel
set is untouched. -/
def handleClose (st : GwState) (clientId : String) : GwState :=
  { st with clientSubscriptions := mapDelete st.clientSubscriptions clientId }

/-- A server-side WebSocket object as the fanout loop sees it: its identity
and its `readyState` (1 = OPEN).  The source never correlates these socket
objects with the `clientSubscriptions` keys. -/
structure WsClient where
  sock : Nat
  readyState : Nat
deriving Repr, DecidableEq

/-- Lines 174-189: build the `agent_event` frame for one upstream payload.
`JSON.parse` succeeding sends the parsed value as `data`; the `catch` branch
sends the raw string instead, so an unparseable payload still produces a
frame. -/
def mkAgentEvent (jsonParse : String → Option JsonVal) (channel message : String)
    (now : Nat) : OutMsg :=
  match jsonParse message with
  | some v => OutMsg.agentEvent channel (.parsed v) now
  | none => OutMsg.agentEvent channel (.raw message) now

/-- Lines 167-195: the `redisSub.on('message')` fanout.  For every socket in
`wss.clients` whose `readyState` is OPEN, the source iterates over *all*
`clientSubscriptions` entries and calls `client.send` once for every entry
whose set contains the channel — it never matches the entry's client id
against the socket it is sending to.  The result is the ordered list of
`(socket, frame)` send attempts. -/
def fanoutAttempts (subsMap : List (String × List String))
    (clients : List WsClient) (jsonParse : String → Option JsonVal)
    (channel message : String) (now : Nat) : List (Nat × OutMsg) :=
  clients.flatMap (fun client =>
    if client.readyState = 1 then
      (subsMap.filter (fun e => setHas e.2 channel)).map
        (fun _ => (client.sock, mkAgentEvent jsonParse channel message now))
    else [])

/-- Asynchronous delivery outcome: `ok s` says whether the socket `s`
actually receives what was sent to it.  In the `ws` library a send on an
open socket does not throw; a dead connection's failure surfaces later on
the socket's error event (whose handler, lines 154-156, only logs), so the
set of attempts above is produced in full regardless of failures. -/
def deliveries (ok : Nat → Bool) (attempts : List (Nat × OutMsg)) :
    List (Nat × OutMsg) :=
  attempts.filter (fun a => ok a.1)

/-- The send attempts addressed to one socket. -/
def sendsTo (s : Nat) (attempts : List (Nat × OutMsg)) : List (Nat × OutMsg) :=
  attempts.filter (fun a => a.1 = s)

/-!
Client side: `WebSocketService.ws.onmessage` in
`src/frontend/src/services/websocket.ts`.  A parsed incoming frame is
emitted under the key `"message"`, and — when its `type` is
`"agent_event"` and it carries a (truthy) `data` object — additionally
under `run:<data.run_id>` and `project:<data.project_id>` when those fields
are truthy.  Components register run handlers under the key
`` `run:${runId}` `` (e.g. `src/frontend/src/pages/SettingsPage.tsx`).
-/

/-- The dispatch-relevant part of a parsed `AgentEvent`'s `data` object
(`run_id` / `project_id`; the TS type declares them as strings, and the
code guards each with a truthiness check, so the falsy case is the empty
string). -/
structure FrontendEventData where
  run_id : String
  project_id : String
deriving Repr, DecidableEq

/-- A parsed frame as `onmessage` inspects it: its `type` and its optional
`data` object (an object is always truthy). -/
structure FrontendEvent where
  type : String
  data : Option FrontendEventData
deriving Repr, DecidableEq

/-- The ordered list of handler-map keys `onmessage` emits a frame under
(lines 203-221 of the bundled frontend source). -/
def emitKeys (e : FrontendEvent) : List String :=
  "message" ::
    (if e.type = "agent_event" then
      match e.data with
      | some d =>
        (if !(d.run_id = "") then ["run:" ++ d.run_id] else []) ++
          (if !(d.project_id = "") then ["project:" ++ d.project_id] else [])
      | none => []
    else [])

/-! ### Sample messages and states used by concrete instantiations -/

/-- A well-formed `{type:"subscribe", run_id:r}` frame. -/
def subMsg (r : String) : JsonVal :=
  .jobj [("type", .jstr "subscribe"), ("run_id", .jstr r)]

/-- A well-formed `{type:"unsubscribe", run_id:r}` frame. -/
def unsubMsg (r : String) : JsonVal :=
  .jobj [("type", .jstr "unsubscribe"), ("run_id", .jstr r)]

/-- A well-formed `{type:"ping"}` frame. -/
def pingMsg : JsonVal := .jobj [("type", .jstr "ping")]

/-- State after client `"a"` alone has connected and subscribed to run
`r1`: one registry entry, one upstream Redis subscription, one subscribe
command issued. -/
def stSoleSub : GwState :=
  ⟨[("a", ["agent_run:r1"])], ["agent_run:r1"], ["agent_run:r1"]⟩

/-- State after clients `"a"` and `"b"` have connected and both subscribed
to run `r1`. -/
def stTwoSubs : GwState :=
  ⟨[("a", ["agent_run:r1"]), ("b", ["agent_run:r1"])],
    ["agent_run:r1"], ["agent_run:r1", "agent_run:r1"]⟩

/-- State after clients `"a"` and `"b"` have connected, neither yet
subscribed. -/
def stTwoFresh : GwState := ⟨[("a", []), ("b", [])], [], []⟩

/-- State after `"a"` has subscribed to run `r1` and `"b"` has connected
but not yet subscribed. -/
def stSoleSubB : GwState :=
  ⟨[("a", ["agent_run:r1"]), ("b", [])], ["agent_run:r1"], ["agent_run:r1"]⟩

/-! ### Helper lemmas about the embedded map/set operations -/

theorem mapLookup_mapUpdate_self (m : List (String × List String)) (k : String)
    (f : List String → List String) :
    mapLookup (mapUpdate m k f) k = (mapLookup m k).map f := by
  induction m with
  | nil => simp [mapLookup, mapUpdate]
  | cons e rest ih =>
    by_cases h : e.1 = k
    · simp [mapLookup, mapUpdate, h]
    · simp [mapLookup, mapUpdate, h, ih]

theorem mapLookup_mapUpdate_ne (m : List (String × List String)) (k k' : String)
    (f : List String → List String) (h : ¬ k' = k) :
    mapLookup (mapUpdate m k f) k' = mapLookup m k' := by
  induction m with
  | nil => simp [mapLookup, mapUpdate]
  | cons e rest ih =>
    by_cases he : e.1 = k
    · have hkk : ¬ (k = k') := fun hk => h hk.symm
      simp [mapLookup, mapUpdate, he, hkk, ih]
    · by_cases he' : e.1 = k'
      · simp [mapLookup, mapUpdate, he, he', h]
      · simp [mapLookup, mapUpdate, he, he', ih]

theorem mapLookup_mapDelete_self (m : List (String × List String)) (k : String) :
    mapLookup (mapDelete m k) k = none := by
  induction m with
  | nil => simp [mapLookup, mapDelete]
  | cons e rest ih =>
    by_cases h : e.1 = k
    · simpa [mapDelete, h] using ih
    · simpa [mapDelete, mapLookup, h] using ih

theorem mapLookup_mapDelete_ne (m : List (String × List String)) (k k' : String)
    (h : ¬ k' = k) :
    mapLookup (mapDelete m k) k' = mapLookup m k' := by
  induction m with
  | nil => simp [mapLookup, mapDelete]
  | cons e rest ih =>
    by_cases he : e.1 = k
    · have hkk : ¬ k = k' := fun hk => h hk.symm
      simp [mapDelete, mapLookup, he, hkk, ih]
    · by_cases he' : e.1 = k'
      · simp [mapDelete, mapLookup, he, he', h]
      · simp [mapDelete, mapLookup, he, he', ih]

theorem setAdd_of_not_mem {s : List String} {c : String} (h : ¬ c ∈ s) :
    setAdd s c = s ++ [c] := by
  simp [setAdd, h]

theorem redisSubscribe_nodup {chs : List String} {c : String}
    (h : chs.Nodup) : (redisSubscribe chs c).Nodup := by
  unfold redisSubscribe
  by_cases hc : c ∈ chs
  · simpa [hc] using h
  · simp [hc, List.nodup_append, h, List.disjoint_singleton]

theorem redisSubscribe_of_mem {chs : List String} {c : String}
    (h : c ∈ chs) : redisSubscribe chs c = chs := by
  simp [redisSubscribe, h]

/-! ### Helper lemmas about the message-handler branches -/

theorem typeIs_unique {msg : JsonVal} {a b : String}
    (h : typeIs msg a = true) (hab : ¬ a = b) : typeIs msg b = false := by
  unfold typeIs at h ⊢
  cases hf : getField msg "type" with
  | none => rfl
  | some v =>
    rw [hf] at h
    cases v with
    | jstr s =>
      have hs : s = a := of_decide_eq_true h
      exact decide_eq_false (fun hb => hab (by rw [← hs, hb]))
    | jnull => rfl
    | jbool c => rfl
    | jnum n => rfl
    | jobj f => rfl

theorem handleSubscribe_skip {st : GwState} {clientId : String} {msg : JsonVal}
    (h : (typeIs msg "subscribe" && truthy (getField msg "run_id")) = false) :
    handleSubscribe st clientId msg = (st, []) := by
  unfold handleSubscribe
  simp [h]

theorem handleUnsubscribe_skip {st : GwState} {clientId : String} {msg : JsonVal}
    (h : (typeIs msg "unsubscribe" && truthy (getField msg "run_id")) = false) :
    handleUnsubscribe st clientId msg = (st, []) := by
  unfold handleUnsubscribe
  simp [h]

theorem handlePing_skip {st : GwState} {msg : JsonVal} {now : Nat}
    (h : typeIs msg "ping" = false) :
    handlePing st msg now = (st, []) := by
  unfold handlePing
  simp [h]

theorem handleUnsubscribe_redis (st : GwState) (clientId : String)
    (msg : JsonVal) :
    (handleUnsubscribe st clientId msg).1.redisChannels = st.redisChannels := by
  unfold handleUnsubscribe
  cases hB : (typeIs msg "unsubscribe" && truthy (getField msg "run_id")) with
  | false => simp [hB]
  | true =>
    simp only [hB, if_true]
    cases hm : mapLookup st.clientSubscriptions clientId <;> simp [hm]

/-! ### Helper lemmas about the fanout dispatch -/

theorem fanoutAttempts_of_no_subscriber
    (subsMap : List (String × List String)) (clients : List WsClient)
    (jsonParse : String → Option JsonVal) (channel message : String) (now : Nat)
    (h : ∀ e ∈ subsMap, setHas e.2 channel = false) :
    fanoutAttempts subsMap clients jsonParse channel message now = [] := by
  have hfilter : subsMap.filter (fun e => setHas e.2 channel) = [] :=
    List.filter_eq_nil_iff.mpr (fun e he => by simp [h e he])
  induction clients with
  | nil => rfl
  | cons c rest ih =>
    unfold fanoutAttempts at ih ⊢
    rw [List.flatMap_cons, ih]
    by_cases hc : c.readyState = 1
    · simp [hc, hfilter]
    · simp [hc]

theorem fanoutAttempts_snd (subsMap : List (String × List String))
    (clients : List WsClient) (jsonParse : String → Option JsonVal)
    (channel message : String) (now : Nat) (a : Nat × OutMsg)
    (ha : a ∈ fanoutAttempts subsMap clients jsonParse channel message now) :
    a.2 = mkAgentEvent jsonParse channel message now := by
  unfold fanoutAttempts at ha
  rcases List.mem_flatMap.mp ha with ⟨c, _, hc⟩
  by_cases hr : c.readyState = 1
  · rw [if_pos hr] at hc
    rcases List.mem_map.mp hc with ⟨e, _, he⟩
    rw [← he]
  · rw [if_neg hr] at hc
    exact absurd hc (List.not_mem_nil a)

theorem sendsTo_deliveries (ok : Nat → Bool) (c : Nat)
    (attempts : List (Nat × OutMsg)) :
    sendsTo c (deliveries ok attempts) =
      if ok c then sendsTo c attempts else [] := by
  induction attempts with
  | nil => cases ok c <;> simp [sendsTo, deliveries]
  | cons a rest ih =>
    by_cases hc : a.1 = c
    · cases hok : ok c with
      | false =>
        have : ok a.1 = false := by rw [hc, hok]
        simp [sendsTo, deliveries, hc, hok, this] at ih ⊢
        exact ih
      | true =>
        have : ok a.1 = true := by rw [hc, hok]
        simp [sendsTo, deliveries, hc, hok, this] at ih ⊢
        exact ih
    · cases hok2 : ok a.1 with
      | false =>
        simp [sendsTo, deliveries, hc, hok2] at ih ⊢
        exact ih
      | true =>
        simp [sendsTo, deliveries, hc, hok2] at ih ⊢
        exact ih

/-! ### Helper lemmas about the frontend key strings -/

theorem string_append_data (s t : String) : (s ++ t).data = s.data ++ t.data :=
  rfl

theorem string_append_left_cancel {s a b : String} (h : s ++ a = s ++ b) :
    a = b := by
  have hd : s.data ++ a.data = s.data ++ b.data := by
    rw [← string_append_data, ← string_append_data, h]
  exact String.ext (List.append_cancel_left hd)

theorem run_key_ne_message (r : String) : ¬ ("run:" ++ r = "message") := by
  intro h
  have hd : ("run:" ++ r).data = "message".data := congrArg String.data h
  rw [string_append_data] at hd
  have h4 : "run:".data = ['r', 'u', 'n', ':'] := rfl
  have hm : "message".data = ['m', 'e', 's', 's', 'a', 'g', 'e'] := rfl
  rw [h4, hm] at hd
  simp only [List.cons_append, List.nil_append, List.cons.injEq] at hd
  exact absurd hd.1 (by decide)

theorem run_key_ne_project_key (r p : String) :
    ¬ ("run:" ++ r = "project:" ++ p) := by
  intro h
  have hd : ("run:" ++ r).data = ("project:" ++ p).data := congrArg String.data h
  rw [string_append_data, string_append_data] at hd
  have h4 : "run:".data = ['r', 'u', 'n', ':'] := rfl
  have hp : "project:".data = ['p', 'r', 'o', 'j', 'e', 'c', 't', ':'] := rfl
  rw [h4, hp] at hd
  simp only [List.cons_append, List.nil_append, List.cons.injEq] at hd
  exact absurd hd.1 (by decide)

theorem handlePing_state (st : GwState) (msg : JsonVal) (now : Nat) :
    (handlePing st msg now).1 = st := by
  unfold handlePing
  cases typeIs msg "ping" <;> rfl

/-! ### Claims -/

/-- Claim C7: every received `{type:"ping"}` frame is answered on the same
connection with `{type:"pong", timestamp}`, and handling it leaves the
Subscription Registry — indeed the whole gateway state — unchanged. -/
theorem ping_answered_registry_unchanged (st : GwState) (clientId : String)
    (msg : JsonVal) (now : Nat) (h : typeIs msg "ping" = true) :
    handleMessage st clientId (some msg) now = (st, [OutMsg.pong now]) := by
  have hsub : typeIs msg "subscribe" = false := typeIs_unique h (by decide)
  have hunsub : typeIs msg "unsubscribe" = false := typeIs_unique h (by decide)
  have h1 : ∀ s : GwState, handleSubscribe s clientId msg = (s, []) :=
    fun s => handleSubscribe_skip (by simp [hsub])
  have h2 : ∀ s : GwState, handleUnsubscribe s clientId msg = (s, []) :=
    fun s => handleUnsubscribe_skip (by simp [hunsub])
  simp [handleMessage, h1, h2, handlePing, h]

/-- Witness for C7: a concrete ping against a subscribed state is answered
with a pong and changes nothing. -/
theorem ping_answered_registry_unchanged_witness :
    typeIs pingMsg "ping" = true ∧
      handleMessage stSoleSub "a" (some pingMsg) 5 = (stSoleSub, [OutMsg.pong 5]) :=
  ⟨rfl, ping_answered_registry_unchanged stSoleSub "a" pingMsg 5 rfl⟩

/-- Claim C9: an incoming frame that does not parse as JSON, or whose type
is none of `subscribe`/`unsubscribe`/`ping`, or that needs a truthy
`run_id` and lacks one, is ignored atomically: the registry (and all state)
is unchanged and nothing is sent back.  The handler contains no
`ws.close()` call, so the connection is not closed either. -/
theorem unknown_frame_ignored (st : GwState) (clientId : String)
    (frame : Option JsonVal) (now : Nat)
    (h : frame = none ∨ ∃ msg, frame = some msg ∧
        ((typeIs msg "subscribe" = false ∧ typeIs msg "unsubscribe" = false ∧
            typeIs msg "ping" = false) ∨
          (typeIs msg "ping" = false ∧ truthy (getField msg "run_id") = false))) :
    handleMessage st clientId frame now = (st, []) := by
  rcases h with h | ⟨msg, hfr, hcase⟩
  · rw [h]; rfl
  · subst hfr
    rcases hcase with ⟨h1, h2, h3⟩ | ⟨h3, h4⟩
    · have hs : ∀ s : GwState, handleSubscribe s clientId msg = (s, []) :=
        fun s => handleSubscribe_skip (by simp [h1])
      have hu : ∀ s : GwState, handleUnsubscribe s clientId msg = (s, []) :=
        fun s => handleUnsubscribe_skip (by simp [h2])
      simp [handleMessage, hs, hu, handlePing_skip h3]
    · have hs : ∀ s : GwState, handleSubscribe s clientId msg = (s, []) :=
        fun s => handleSubscribe_skip (by simp [h4])
      have hu : ∀ s : GwState, handleUnsubscribe s clientId msg = (s, []) :=
        fun s => handleUnsubscribe_skip (by simp [h4])
      simp [handleMessage, hs, hu, handlePing_skip h3]

/-- Witness for C9: an unparseable frame against a concrete two-client
state changes nothing and sends nothing. -/
theorem unknown_frame_ignored_witness :
    ((none : Option JsonVal) = none ∨ ∃ msg, (none : Option JsonVal) = some msg ∧
        ((typeIs msg "subscribe" = false ∧ typeIs msg "unsubscribe" = false ∧
            typeIs msg "ping" = false) ∨
          (typeIs msg "ping" = false ∧ truthy (getField msg "run_id") = false))) ∧
      handleMessage stTwoFresh "a" none 0 = (stTwoFresh, []) :=
  ⟨Or.inl rfl, unknown_frame_ignored stTwoFresh "a" none 0 (Or.inl rfl)⟩

/-- Claim C8: the bridge's forwarding is total in the payload — a payload
that parses as JSON is delivered inside the `agent_event` frame as the
parsed value, one that does not parse is delivered as the raw string, and
every send attempt the fanout produces carries exactly this frame, so a
malformed payload never aborts dispatch. -/
theorem fanout_total_in_payload (jsonParse : String → Option JsonVal)
    (channel message : String) (now : Nat) :
    (∀ v, jsonParse message = some v →
        mkAgentEvent jsonParse channel message now =
          OutMsg.agentEvent channel (.parsed v) now) ∧
    (jsonParse message = none →
        mkAgentEvent jsonParse channel message now =
          OutMsg.agentEvent channel (.raw message) now) ∧
    (∀ subsMap clients a,
        a ∈ fanoutAttempts subsMap clients jsonParse channel message now →
        a.2 = mkAgentEvent jsonParse channel message now) := by
  refine ⟨?_, ?_, ?_⟩
  · intro v hv; unfold mkAgentEvent; rw [hv]
  · intro hv; unfold mkAgentEvent; rw [hv]
  · intro subsMap clients a ha
    exact fanoutAttempts_snd subsMap clients jsonParse channel message now a ha

/-- Witness for C8: one parse function exercised on a payload it parses and
on one it rejects; both branches produce the corresponding frame. -/
theorem fanout_total_in_payload_witness :
    ((fun s => if s = "{}" then some (JsonVal.jobj []) else none) "{}"
        = some (JsonVal.jobj []) ∧
      mkAgentEvent (fun s => if s = "{}" then some (JsonVal.jobj []) else none)
          "agent_run:r1" "{}" 9 =
        OutMsg.agentEvent "agent_run:r1" (.parsed (.jobj [])) 9) ∧
    ((fun s => if s = "{}" then some (JsonVal.jobj []) else none) "oops"
        = none ∧
      mkAgentEvent (fun s => if s = "{}" then some (JsonVal.jobj []) else none)
          "agent_run:r1" "oops" 9 =
        OutMsg.agentEvent "agent_run:r1" (.raw "oops") 9) :=
  ⟨⟨rfl, (fanout_total_in_payload _ "agent_run:r1" "{}" 9).1 (.jobj []) rfl⟩,
    ⟨rfl, (fanout_total_in_payload _ "agent_run:r1" "oops" 9).2.1 rfl⟩⟩

/-- Claim C4: delivery is independent and best-effort per connection — the
frames a socket is sent do not depend on whether delivery to any other
socket fails, and a socket whose own delivery succeeds receives exactly the
attempts the dispatch loop produced for it.  Failures surface on the
failing socket's error event (whose handler only logs) and never alter the
dispatch path. -/
theorem fanout_failure_isolated (subsMap : List (String × List String))
    (clients : List WsClient) (jsonParse : String → Option JsonVal)
    (channel message : String) (now : Nat) (ok₁ ok₂ : Nat → Bool) (c : Nat)
    (h : ok₁ c = ok₂ c) :
    sendsTo c (deliveries ok₁
        (fanoutAttempts subsMap clients jsonParse channel message now)) =
      sendsTo c (deliveries ok₂
        (fanoutAttempts subsMap clients jsonParse channel message now)) ∧
    (ok₁ c = true →
      sendsTo c (deliveries ok₁
          (fanoutAttempts subsMap clients jsonParse channel message now)) =
        sendsTo c (fanoutAttempts subsMap clients jsonParse channel message now)) := by
  constructor
  · rw [sendsTo_deliveries, sendsTo_deliveries, h]
  · intro hc
    rw [sendsTo_deliveries, hc]
    simp

/-- Witness for C4: socket 1's delivery failing does not change what socket
0 is sent. -/
theorem fanout_failure_isolated_witness :
    ((fun s => !(s = 1)) 0 = (fun _ => true) 0) ∧
      (sendsTo 0 (deliveries (fun s => !(s = 1))
          (fanoutAttempts stTwoSubs.clientSubscriptions [⟨0, 1⟩, ⟨1, 1⟩]
            (fun _ => none) "agent_run:r1" "hi" 7)) =
        sendsTo 0 (deliveries (fun _ => true)
          (fanoutAttempts stTwoSubs.clientSubscriptions [⟨0, 1⟩, ⟨1, 1⟩]
            (fun _ => none) "agent_run:r1" "hi" 7))) :=
  ⟨rfl,
    (fanout_failure_isolated stTwoSubs.clientSubscriptions [⟨0, 1⟩, ⟨1, 1⟩]
      (fun _ => none) "agent_run:r1" "hi" 7 (fun s => !(s = 1)) (fun _ => true)
      0 rfl).1⟩

/-- Claim C10: the client-side service emits a frame under a run key
`run:<r>` only when the frame's type is `"agent_event"`, it carries a data
object, and that object's `run_id` is exactly `r` — so a handler registered
for run `r` never sees an event with a different run id or without data. -/
theorem run_handler_only_matching_run (e : FrontendEvent) (r : String)
    (h : ("run:" ++ r) ∈ emitKeys e) :
    e.type = "agent_event" ∧ ∃ d, e.data = some d ∧ d.run_id = r := by
  unfold emitKeys at h
  rcases List.mem_cons.mp h with hmsg | hrest
  · exact absurd hmsg (run_key_ne_message r)
  · by_cases ht : e.type = "agent_event"
    · rw [if_pos ht] at hrest
      cases hd : e.data with
      | none =>
        rw [hd] at hrest
        exact absurd hrest (List.not_mem_nil _)
      | some d =>
        rw [hd] at hrest
        refine ⟨ht, d, rfl, ?_⟩
        rcases List.mem_append.mp hrest with hrun | hproj
        · by_cases hr : d.run_id = ""
          · simp [hr] at hrun
          · simp [hr] at hrun
            exact (string_append_left_cancel hrun).symm
        · by_cases hp : d.project_id = ""
          · simp [hp] at hproj
          · simp [hp] at hproj
            exact absurd hproj (run_key_ne_project_key r d.project_id)
    · rw [if_neg ht] at hrest
      exact absurd hrest (List.not_mem_nil _)

/-- Witness for C10: a concrete `agent_event` frame is emitted under its
own run key, and the theorem recovers type, data and run id from that. -/
theorem run_handler_only_matching_run_witness :
    (("run:" ++ "r1") ∈ emitKeys ⟨"agent_event", some ⟨"r1", "p1"⟩⟩) ∧
      ((⟨"agent_event", some ⟨"r1", "p1"⟩⟩ : FrontendEvent).type = "agent_event" ∧
        ∃ d, (⟨"agent_event", some ⟨"r1", "p1"⟩⟩ : FrontendEvent).data = some d ∧
          d.run_id = "r1") :=
  ⟨by simp [emitKeys],
    run_handler_only_matching_run ⟨"agent_event", some ⟨"r1", "p1"⟩⟩ "r1"
      (by simp [emitKeys])⟩

theorem handleMessage_redis_of_not_subscribe (st : GwState) (clientId : String)
    (msg : JsonVal) (now : Nat) (h : typeIs msg "subscribe" = false) :
    (handleMessage st clientId (some msg) now).1.redisChannels =
      st.redisChannels := by
  have h1 : handleSubscribe st clientId msg = (st, []) :=
    handleSubscribe_skip (by simp [h])
  simp only [handleMessage, h1]
  rw [handlePing_state]
  exact handleUnsubscribe_redis st clientId msg

/-- Claim C2 counterexample: client `"a"` is the only connection subscribed
to `agent_run:r1`; after its `unsubscribe` frame the registry entry is
empty, yet the Redis subscriber still holds the upstream subscription — it
was never released (`redisSub.unsubscribe` is never called in the source). -/
theorem unsubscribe_keeps_upstream_counterexample :
    (handleMessage stSoleSub "a" (some (unsubMsg "r1")) 0).1.clientSubscriptions
        = [("a", [])] ∧
      (handleMessage stSoleSub "a" (some (unsubMsg "r1")) 0).1.redisChannels
        = ["agent_run:r1"] :=
  ⟨rfl, rfl⟩

/-- Claim C2 (amended): after the only interested connection's
`unsubscribe` frame the upstream subscription is retained, not released;
nevertheless, once no registry entry contains the channel, a subsequent
publication on it produces no delivery attempt to any connection, because
the fanout finds no registry entry containing the channel. -/
theorem unsubscribe_no_delivery_upstream_retained (st : GwState)
    (clientId : String) (msg : JsonVal) (now tsn : Nat)
    (clients : List WsClient) (jsonParse : String → Option JsonVal)
    (chan m : String)
    (hmsg : typeIs msg "unsubscribe" = true)
    (hafter : ∀ e ∈ (handleMessage st clientId (some msg) now).1.clientSubscriptions,
        setHas e.2 chan = false) :
    (handleMessage st clientId (some msg) now).1.redisChannels =
        st.redisChannels ∧
      fanoutAttempts (handleMessage st clientId (some msg) now).1.clientSubscriptions
          clients jsonParse chan m tsn = [] := by
  constructor
  · exact handleMessage_redis_of_not_subscribe st clientId msg now
      (typeIs_unique hmsg (by decide))
  · exact fanoutAttempts_of_no_subscriber _ clients jsonParse chan m tsn hafter

/-- Witness for C2 (amended): the concrete sole-subscriber scenario — after
the unsubscribe, the upstream channel set is unchanged and a publication
reaches no connection. -/
theorem unsubscribe_no_delivery_upstream_retained_witness :
    typeIs (unsubMsg "r1") "unsubscribe" = true ∧
      (∀ e ∈ (handleMessage stSoleSub "a" (some (unsubMsg "r1")) 0).1.clientSubscriptions,
          setHas e.2 "agent_run:r1" = false) ∧
      ((handleMessage stSoleSub "a" (some (unsubMsg "r1")) 0).1.redisChannels =
          stSoleSub.redisChannels ∧
        fanoutAttempts
            (handleMessage stSoleSub "a" (some (unsubMsg "r1")) 0).1.clientSubscriptions
            [⟨0, 1⟩] (fun _ => none) "agent_run:r1" "x" 3 = []) :=
  ⟨rfl, by decide,
    unsubscribe_no_delivery_upstream_retained stSoleSub "a" (unsubMsg "r1") 0 3
      [⟨0, 1⟩] (fun _ => none) "agent_run:r1" "x" rfl (by decide)⟩

theorem handleSubscribe_redis (st : GwState) (clientId : String)
    (msg : JsonVal) :
    (handleSubscribe st clientId msg).1.redisChannels = st.redisChannels ∨
      ∃ c, (handleSubscribe st clientId msg).1.redisChannels =
        redisSubscribe st.redisChannels c := by
  unfold handleSubscribe
  cases hB : (typeIs msg "subscribe" && truthy (getField msg "run_id")) with
  | false => simp [hB]
  | true =>
    simp only [hB, if_true]
    cases hm : mapLookup st.clientSubscriptions clientId with
    | none => simp
    | some subs =>
      cases hh : setHas subs
          ("agent_run:" ++ jsToString ((getField msg "run_id").getD .jnull)) with
      | false =>
        right
        exact ⟨"agent_run:" ++ jsToString ((getField msg "run_id").getD .jnull),
          by simp [hh]⟩
      | true => simp [hh]

/-- Claim C3 counterexample: clients `"a"` and `"b"` subscribe to the same
run in turn; the gateway issues `redisSub.subscribe("agent_run:r1")` twice —
the second connection's subscribe does re-issue an upstream subscribe for
the already-subscribed channel (the per-client `subs.has` check cannot see
other clients' subscriptions). -/
theorem second_subscribe_reissues_upstream_counterexample :
    (handleMessage (handleMessage stTwoFresh "a" (some (subMsg "r1")) 0).1 "b"
        (some (subMsg "r1")) 0).1.subCommands =
      ["agent_run:r1", "agent_run:r1"] :=
  rfl

/-- Claim C3 (amended): the Redis-side subscription set still holds at most
one subscription per distinct channel — every gateway event preserves its
duplicate-freedom, because Redis SUBSCRIBE is idempotent on the channel set
— even though a second connection subscribing to an already-subscribed
channel re-issues the upstream subscribe command. -/
theorem upstream_subscription_unique (st : GwState) (clientId : String)
    (frame : Option JsonVal) (now : Nat) (h : st.redisChannels.Nodup) :
    ((handleMessage st clientId frame now).1.redisChannels).Nodup ∧
      ((handleConnect st clientId now).1.redisChannels).Nodup ∧
      ((handleClose st clientId).redisChannels).Nodup := by
  refine ⟨?_, h, h⟩
  cases frame with
  | none => exact h
  | some msg =>
    have hredis : (handleMessage st clientId (some msg) now).1.redisChannels =
        (handleSubscribe st clientId msg).1.redisChannels := by
      simp only [handleMessage]
      rw [handlePing_state]
      exact handleUnsubscribe_redis _ clientId msg
    rw [hredis]
    rcases handleSubscribe_redis st clientId msg with he | ⟨c, he⟩
    · rw [he]; exact h
    · rw [he]; exact redisSubscribe_nodup h

/-- Witness for C3 (amended): client `"b"` subscribing to the channel
client `"a"` already subscribed leaves the upstream set duplicate-free. -/
theorem upstream_subscription_unique_witness :
    stSoleSubB.redisChannels.Nodup ∧
      ((handleMessage stSoleSubB "b" (some (subMsg "r1")) 0).1.redisChannels).Nodup :=
  ⟨by decide,
    (upstream_subscription_unique stSoleSubB "b" (some (subMsg "r1")) 0
      (by decide)).1⟩

/-- Claim C5 counterexample: the sole connection subscribed to
`agent_run:r1` disconnects; its registry entry is removed, but the gateway
keeps no per-channel interest count and the upstream Redis subscription for
the now-unwatched channel is not released. -/
theorem close_keeps_upstream_counterexample :
    (handleClose stSoleSub "a").clientSubscriptions = [] ∧
      (handleClose stSoleSub "a").redisChannels = ["agent_run:r1"] :=
  ⟨rfl, rfl⟩

/-- Claim C5 (amended): on disconnect all of the connection's Subscription
Registry entries are removed and every other connection's entry is
untouched, but no per-channel interest count exists and the upstream
subscriptions are left exactly as they were. -/
theorem close_removes_entries_keeps_upstream (st : GwState)
    (clientId : String) :
    mapLookup (handleClose st clientId).clientSubscriptions clientId = none ∧
      (∀ k, ¬ k = clientId →
        mapLookup (handleClose st clientId).clientSubscriptions k =
          mapLookup st.clientSubscriptions k) ∧
      (handleClose st clientId).redisChannels = st.redisChannels :=
  ⟨mapLookup_mapDelete_self _ _,
    fun k hk => mapLookup_mapDelete_ne st.clientSubscriptions clientId k hk, rfl⟩

/-- Witness for C5 (amended): closing `"a"` in a two-client state removes
`"a"`'s entry, keeps `"b"`'s, and keeps the upstream subscription. -/
theorem close_removes_entries_keeps_upstream_witness :
    ¬ "b" = "a" ∧
      mapLookup (handleClose stSoleSubB "a").clientSubscriptions "b" =
        mapLookup stSoleSubB.clientSubscriptions "b" :=
  ⟨by decide,
    (close_removes_entries_keeps_upstream stSoleSubB "a").2.1 "b" (by decide)⟩

/-- Claim C6 counterexample: client `"a"` is already subscribed to run
`r1`; a second well-formed `{type:"subscribe", run_id:"r1"}` frame carries
a non-empty run id, yet the server sends no acknowledgment at all (the
`ws.send` sits inside the `!subs.has(channel)` guard). -/
theorem duplicate_subscribe_no_ack_counterexample :
    typeIs (subMsg "r1") "subscribe" = true ∧
      truthy (getField (subMsg "r1") "run_id") = true ∧
      handleMessage stSoleSub "a" (some (subMsg "r1")) 3 = (stSoleSub, []) :=
  ⟨rfl, rfl, rfl⟩

/-- Claim C6 (amended): a `{type:"subscribe", run_id}` frame with a
non-empty `run_id` from a connection with a registry entry is acknowledged
with `{type:"subscribed", run_id}` carrying the same run id exactly when
the channel `agent_run:<run_id>` is not already in the connection's set, in
which case exactly that channel string is added to the set; when the
channel is already present, nothing is sent and nothing changes. -/
theorem subscribe_ack_exactly_on_new_channel (st : GwState)
    (clientId runId : String) (msg : JsonVal) (subs : List String) (now : Nat)
    (htype : typeIs msg "subscribe" = true)
    (hrun : getField msg "run_id" = some (.jstr runId))
    (hne : ¬ runId = "")
    (hsubs : mapLookup st.clientSubscriptions clientId = some subs) :
    (setHas subs ("agent_run:" ++ runId) = false →
        (handleMessage st clientId (some msg) now).2 =
          [OutMsg.subscribed ("agent_run:" ++ runId) runId] ∧
        mapLookup
            (handleMessage st clientId (some msg) now).1.clientSubscriptions
            clientId = some (subs ++ ["agent_run:" ++ runId])) ∧
      (setHas subs ("agent_run:" ++ runId) = true →
        handleMessage st clientId (some msg) now = (st, [])) := by
  have htruthy : truthy (getField msg "run_id") = true := by
    rw [hrun]; simp [truthy, hne]
  have hguard : (typeIs msg "subscribe" && truthy (getField msg "run_id"))
      = true := by rw [htype, htruthy]; rfl
  have hstr : jsToString ((getField msg "run_id").getD .jnull) = runId := by
    rw [hrun]; rfl
  have hunsub : ∀ s : GwState, handleUnsubscribe s clientId msg = (s, []) :=
    fun s => handleUnsubscribe_skip
      (by simp [typeIs_unique htype (by decide : ¬ "subscribe" = "unsubscribe")])
  have hping : ∀ (s : GwState) (t : Nat), handlePing s msg t = (s, []) :=
    fun s t => handlePing_skip
      (typeIs_unique htype (by decide : ¬ "subscribe" = "ping"))
  constructor
  · intro hnew
    have hsubeq : handleSubscribe st clientId msg =
        ({ st with
            clientSubscriptions := mapUpdate st.clientSubscriptions clientId
              (fun s => setAdd s ("agent_run:" ++ runId))
            redisChannels := redisSubscribe st.redisChannels
              ("agent_run:" ++ runId)
            subCommands := st.subCommands ++ ["agent_run:" ++ runId] },
          [OutMsg.subscribed ("agent_run:" ++ runId) runId]) := by
      unfold handleSubscribe
      rw [hguard, if_pos rfl]
      rw [hstr, hsubs]
      simp [hnew]
    have hmem : ¬ ("agent_run:" ++ runId) ∈ subs := by
      intro hm
      rw [show setHas subs ("agent_run:" ++ runId) = true from
        decide_eq_true hm] at hnew
      exact absurd hnew (by decide)
    constructor
    · simp [handleMessage, hsubeq, hunsub, hping]
    · simp only [handleMessage, hsubeq, hunsub, hping]
      rw [mapLookup_mapUpdate_self, hsubs]
      simp [setAdd_of_not_mem hmem]
  · intro hold
    have hsubeq : handleSubscribe st clientId msg = (st, []) := by
      unfold handleSubscribe
      rw [hguard, if_pos rfl]
      rw [hstr, hsubs]
      simp [hold]
    simp [handleMessage, hsubeq, hunsub, hping]

/-- Witness for C6 (amended): a fresh subscribe by `"b"` (no channel yet in
its set) is acknowledged and registers exactly `agent_run:r1`. -/
theorem subscribe_ack_exactly_on_new_channel_witness :
    typeIs (subMsg "r1") "subscribe" = true ∧
      getField (subMsg "r1") "run_id" = some (.jstr "r1") ∧
      ¬ "r1" = "" ∧
      mapLookup stSoleSubB.clientSubscriptions "b" = some [] ∧
      setHas [] ("agent_run:" ++ "r1") = false ∧
      ((handleMessage stSoleSubB "b" (some (subMsg "r1")) 0).2 =
          [OutMsg.subscribed ("agent_run:" ++ "r1") "r1"] ∧
        mapLookup
            (handleMessage stSoleSubB "b" (some (subMsg "r1")) 0).1.clientSubscriptions
            "b" = some ([] ++ ["agent_run:" ++ "r1"])) :=
  ⟨rfl, rfl, by decide, rfl, rfl,
    (subscribe_ack_exactly_on_new_channel stSoleSubB "b" "r1" (subMsg "r1")
      [] 0 rfl rfl (by decide) rfl).1 rfl⟩

/-- Claim C1 (code evaluated at the failing input): with connections `"a"`
and `"b"` both subscribed to `agent_run:r1` on open sockets `0` and `1`,
one upstream message produces two send attempts to *each* socket — the
fanout loop (comment: `Find client ID for this connection`) iterates over
every registry entry containing the channel without ever matching the
entry against the socket it sends to, so each open connection receives one
copy per subscribed registry entry instead of exactly one copy; likewise,
with only `"a"` subscribed, the open but unsubscribed socket of `"b"`
still receives a copy. -/
theorem fanout_double_delivery_bug :
    fanoutAttempts stTwoSubs.clientSubscriptions [⟨0, 1⟩, ⟨1, 1⟩]
        (fun _ => none) "agent_run:r1" "hello" 7 =
      [(0, OutMsg.agentEvent "agent_run:r1" (.raw "hello") 7),
        (0, OutMsg.agentEvent "agent_run:r1" (.raw "hello") 7),
        (1, OutMsg.agentEvent "agent_run:r1" (.raw "hello") 7),
        (1, OutMsg.agentEvent "agent_run:r1" (.raw "hello") 7)] ∧
      fanoutAttempts stSoleSubB.clientSubscriptions [⟨0, 1⟩, ⟨1, 1⟩]
          (fun _ => none) "agent_run:r1" "hello" 7 =
        [(0, OutMsg.agentEvent "agent_run:r1" (.raw "hello") 7),
          (1, OutMsg.agentEvent "agent_run:r1" (.raw "hello") 7)] :=
  ⟨rfl, rfl⟩
